import Mathlib

/-!
Shallow embedding of the classification-and-materialization pipeline of
`src/resource.rs` (the `resource-surveillance` ingester core).

Conventions of the embedding:

* Machine regexes compiled from the literal default patterns are embedded as
  executable Lean functions on strings with the same matching semantics
  (all five default patterns are simple enough to be rendered exactly:
  substring tests, anchored suffix alternations, and a bracketed capture).
  A regex carrying a `nature` named capture group is modelled as a function
  `String → Option (Option String)`: `none` = no match, `some g` = match
  with `g` the text captured by the `nature` group when the group exists.
* Strings are processed through `String.data` (`List Char`) with structural
  recursion so every definition evaluates inside the kernel.
* External effects (the OS filesystem, the virtual filesystem, the execute
  permission bit, and subprocess execution) are supplied by a `World`
  record; the functions from `resource.rs` take the world as an argument
  and are otherwise literal translations.
* `bitflags` values are `Nat` bit sets, with the same bit assignments as the
  source; `contains` and `insert` are bitwise and/or exactly as `bitflags`
  defines them.
-/

/-! ## String scanning helpers (kernel-executable regex semantics) -/

/-- Split a character list at the first occurrence of `sub`: returns
`(before, after)` where `before ++ sub ++ after` is the input, for the
leftmost occurrence, or `none` when `sub` does not occur. -/
def splitFirst (sub : List Char) : List Char → Option (List Char × List Char)
  | [] => if sub.isEmpty then some ([], []) else none
  | c :: t =>
    if sub.isPrefixOf (c :: t) then some ([], (c :: t).drop sub.length)
    else (splitFirst sub t).map fun p => (c :: p.1, p.2)

/-- `true` iff `sub` occurs as a contiguous substring of `s`. -/
def containsSubstr (s sub : String) : Bool :=
  (splitFirst sub.data s.data).isSome

/-- `true` iff `s` ends with `suffix`. -/
def strEndsWith (s suffix : String) : Bool :=
  suffix.data.isSuffixOf s.data

/-- The last path component of `p` (the characters after the final `/`),
mirroring `Path::file_name` for the paths the pipeline feeds it. -/
def lastPathComponent (s : List Char) : List Char :=
  (s.reverse.takeWhile (fun c => !(c == '/'))).reverse

/-- Rust `Path::extension()` on the file name `name`: the portion after the
final `.`, or `none` when there is no `.` or the only `.` is leading
(dotfiles such as `.git` have no extension). -/
def rustPathExtensionChars (name : List Char) : Option (List Char) :=
  match splitFirst ['.'] name.reverse with
  | none => none
  | some p => if p.2.isEmpty then none else some p.1.reverse

/-- `fs_path.extension().map(to_string_lossy)` from
`EncounteredResourceMetaData::from_fs_path`. -/
def rustExtension (p : String) : Option String :=
  (rustPathExtensionChars (lastPathComponent p.data)).map fun e => String.mk e

/-- `vfs_path.as_str().rsplit_once('.').map(|(_, ext)| ext)` from
`EncounteredResourceMetaData::from_vfs_path`: the substring after the final
`.` of the whole URI (no dotfile exception). -/
def vfsExtension (p : String) : Option String :=
  match splitFirst ['.'] p.data.reverse with
  | none => none
  | some q => some (String.mk q.1.reverse)

/-! ## Flag bit sets (`bitflags!` block of `resource.rs`) -/

namespace EncounterableResourceFlags

def CONTENT_ACQUIRABLE : Nat := 1
def IGNORE_RESOURCE : Nat := 2
def CAPTURABLE_EXECUTABLE : Nat := 4
def CAPTURABLE_SQL : Nat := 8
def TERMINAL_COMMON : Nat := 8

end EncounterableResourceFlags

namespace EncounteredResourceFlags

def CONTENT_ACQUIRABLE : Nat := 1
def IGNORE_RESOURCE : Nat := 2
def CAPTURABLE_EXECUTABLE : Nat := 4
def CAPTURABLE_SQL : Nat := 8
def TERMINAL_INHERITED : Nat := 8
def IS_FILE : Nat := 16
def IS_DIRECTORY : Nat := 32
def IS_SYMLINK : Nat := 64

end EncounteredResourceFlags

/-- `bitflags` `contains`: all bits of `f` are present in `b`. -/
def flagsContains (b f : Nat) : Bool := b &&& f == f

/-- The bits `ContentResourceFlags` knows about (`from_bits_truncate` mask):
the four common flags inherited through `EncounteredResourceFlags`. -/
def contentResourceFlagsMask : Nat := 15

/-! ## Path rules and the classifier -/

/-- `NatureRewriteRule`: a regex (with a `nature` capture group) and the
configured replacement nature. -/
structure NatureRewriteRule where
  regex : String → Option (Option String)
  nature : String

/-- `NatureRewriteRule::is_match`: the text captured by the `nature` group
when the regex matches and the group participated, else `none`. -/
def NatureRewriteRule.is_match (r : NatureRewriteRule) (text : String) : Option String :=
  match r.regex text with
  | some (some g) => some g
  | _ => none

/-- `EncounterableResourceClass`: classification outcome (flag bits plus an
optional nature). -/
structure EncounterableResourceClass where
  flags : Nat
  nature : Option String
deriving DecidableEq, Repr

/-- `EncounterableResourcePathClassifier` (regexes compiled, semantics as
functions). -/
structure EncounterableResourcePathClassifier where
  ignore_paths_regex_set : String → Bool
  acquire_content_for_paths_regex_set : List (String → Option (Option String))
  capturable_executables_paths_regexs : List (String → Option (Option String))
  captured_exec_sql_paths_regex_set : String → Bool
  rewrite_nature_regexs : List NatureRewriteRule

/-- The `for regex in … { if let Some(caps) … if let Some(nature) … }` loops
of `classify`: the first regex that matches *and* captures a `nature`
group wins; a match without the group falls through to the next regex. -/
def findNatureCapture (rs : List (String → Option (Option String))) (text : String) :
    Option String :=
  rs.findSome? fun r =>
    match r text with
    | some (some g) => some g
    | _ => none

/-- The rewrite loop shared by the acquire-content and capturable-executable
branches of `classify`: the first rewrite rule whose `is_match` succeeds
pushes `(text, class_nature, rewritten)` onto the log (when one was
supplied) and replaces `class_nature` with `rewritten` — note `rewritten`
is the text captured by the rewrite regex's `nature` group; the rule's
configured `nature` field is not consulted. -/
def applyNatureRewrites (rules : List NatureRewriteRule) (text : String)
    (class_nature : String) (log : Option (List (String × String × String))) :
    String × Option (List (String × String × String)) :=
  match rules.findSome? fun rnr => rnr.is_match text with
  | some rewritten => (rewritten, log.map fun l => l ++ [(text, class_nature, rewritten)])
  | none => (class_nature, log)

/-- `EncounterableResourcePathClassifier::classify` (the
`EncounterableResourceUriClassifier` impl). The `&mut` class and optional
`&mut` rewrite log are state-passed: the result is
`(returned bool, final class, final log)`. -/
def EncounterableResourcePathClassifier.classify
    (c : EncounterableResourcePathClassifier) (text : String)
    (cls : EncounterableResourceClass)
    (rewritten_natures : Option (List (String × String × String))) :
    Bool × EncounterableResourceClass × Option (List (String × String × String)) :=
  if c.ignore_paths_regex_set text then
    (true,
      { cls with flags := cls.flags ||| EncounterableResourceFlags.IGNORE_RESOURCE },
      rewritten_natures)
  else
    match findNatureCapture c.acquire_content_for_paths_regex_set text with
    | some nature =>
      let r := applyNatureRewrites c.rewrite_nature_regexs text nature rewritten_natures
      (true,
        { flags := cls.flags ||| EncounterableResourceFlags.CONTENT_ACQUIRABLE,
          nature := some r.1 },
        r.2)
    | none =>
      match findNatureCapture c.capturable_executables_paths_regexs text with
      | some nature =>
        let r := applyNatureRewrites c.rewrite_nature_regexs text nature rewritten_natures
        (true,
          { flags := cls.flags ||| EncounterableResourceFlags.CAPTURABLE_EXECUTABLE,
            nature := some r.1 },
          r.2)
      | none =>
        if c.captured_exec_sql_paths_regex_set text then
          (true,
            { cls with
              flags := cls.flags |||
                (EncounterableResourceFlags.CAPTURABLE_EXECUTABLE |||
                  EncounterableResourceFlags.CAPTURABLE_SQL) },
            rewritten_natures)
        else
          (false, cls, rewritten_natures)

/-! ## The default rules (`DEFAULT_*` pattern constants), rendered as their
compiled matching semantics -/

/-- `DEFAULT_IGNORE_PATHS_REGEX_PATTERNS`, the single regex
`/(\.git|node_modules)/`: matches iff the URI contains `/.git/` or
`/node_modules/`. -/
def DEFAULT_IGNORE_PATHS_MATCH (s : String) : Bool :=
  containsSubstr s "/.git/" || containsSubstr s "/node_modules/"

/-- Alternatives of the `nature` group in
`DEFAULT_ACQUIRE_CONTENT_EXTNS_REGEX_PATTERNS`. -/
def defaultAcquireExtns : List String :=
  ["md", "mdx", "html", "json", "jsonc", "txt", "toml", "yaml"]

/-- `DEFAULT_ACQUIRE_CONTENT_EXTNS_REGEX_PATTERNS`, the single regex
`\.(?P<nature>md|mdx|html|json|jsonc|txt|toml|yaml)$`: matches iff the URI
ends in a dot followed by one of the alternatives, capturing that
alternative (the `$` anchor makes at most one alternative possible). -/
def DEFAULT_ACQUIRE_CONTENT_CAPTURE (s : String) : Option (Option String) :=
  (defaultAcquireExtns.find? fun e => strEndsWith s ("." ++ e)).map some

/-- `DEFAULT_CAPTURE_EXEC_REGEX_PATTERNS`, the single regex
`surveilr\[(?P<nature>[^\]]*)\]`: from the leftmost `surveilr[`, capture up
to the first following `]`; no match when no `]` follows. -/
def DEFAULT_CAPTURE_EXEC_CAPTURE (s : String) : Option (Option String) :=
  match splitFirst "surveilr[".data s.data with
  | none => none
  | some p =>
    match splitFirst "]".data p.2 with
    | none => none
    | some q => some (some (String.mk q.1))

/-- `DEFAULT_CAPTURE_SQL_EXEC_REGEX_PATTERNS`, the single regex
`surveilr-SQL`: a plain substring test. -/
def DEFAULT_CAPTURE_SQL_MATCH (s : String) : Bool :=
  containsSubstr s "surveilr-SQL"

/-- `DEFAULT_REWRITE_NATURE_PATTERNS`, the single rule
`(\.(?P<nature>tap|text)$, "text/plain")`. -/
def DEFAULT_REWRITE_NATURE_RULE : NatureRewriteRule :=
  { regex := fun s => (["tap", "text"].find? fun e => strEndsWith s ("." ++ e)).map some
    nature := "text/plain" }

/-- `EncounterableResourcePathClassifier::default()`: the classifier built
from `EncounterableResourcePathRules::default()` by `from_path_rules`. -/
def defaultClassifier : EncounterableResourcePathClassifier :=
  { ignore_paths_regex_set := DEFAULT_IGNORE_PATHS_MATCH
    acquire_content_for_paths_regex_set := [DEFAULT_ACQUIRE_CONTENT_CAPTURE]
    capturable_executables_paths_regexs := [DEFAULT_CAPTURE_EXEC_CAPTURE]
    captured_exec_sql_paths_regex_set := DEFAULT_CAPTURE_SQL_MATCH
    rewrite_nature_regexs := [DEFAULT_REWRITE_NATURE_RULE] }

/-! ## JSON values (`serde_json::Value`), objects in map-iteration order -/

/-- `serde_json::Value`; an object is its list of entries in the map's
iteration order. -/
inductive Json where
  | null : Json
  | bool (b : Bool) : Json
  | num (n : Int) : Json
  | str (s : String) : Json
  | arr (xs : List Json) : Json
  | obj (fields : List (String × Json)) : Json

/-- Look up a string-valued field of a JSON object (used to inspect the
`issue` field of diagnostics). -/
def Json.getStrField? (j : Json) (key : String) : Option String :=
  match j with
  | .obj fields =>
    fields.findSome? fun kv =>
      if kv.1 = key then
        match kv.2 with
        | .str s => some s
        | _ => none
      else none
  | _ => none

/-! ## The external world: filesystem, permissions, subprocesses -/

/-- Result of `fs::metadata` (std `Metadata`): file-type booleans, length,
and the `.ok()`-projected creation/modification times. -/
structure FsMetadata where
  is_file : Bool
  is_dir : Bool
  is_symlink : Bool
  len : Nat
  created : Option Int
  modified : Option Int

/-- `vfs::VfsFileType`. -/
inductive VfsFileType where
  | file
  | directory
deriving DecidableEq

/-- Result of `vfs::VfsPath::metadata()`. -/
structure VfsMetadata where
  file_type : VfsFileType
  len : Nat

/-- `ShellStdIn`: the stdin payload handed to a shell executive.
Modelled from the spec: the `shell` module is not under `src/`; §6 gives the
executive a stdin payload, which we keep abstract as an optional text. -/
def ShellStdIn := Option String

/-- `ShellResult`: what a shell executive returns.
Modelled from the spec: §6 — `{stdout, stderr, status}` with
`status.success()` true iff the exit code is 0. -/
structure ShellResult where
  stdout : String
  stderr : String
  status : Int

/-- `ShellResult::success` / `status.success()`: exit code 0. -/
def ShellResult.success (r : ShellResult) : Bool := r.status == 0

/-- The shell-executive handles the code constructs: either a
`DenoTaskShellExecutive::new(line, identity)` (task lines) or a `String`
used as its own `ShellExecutive` (executable file URIs). Their runtime
behavior lives in the `World`.
Modelled from the spec: the `shell` module is not under `src/`; only the
identity of the handle matters to `resource.rs`. -/
inductive ShellExecutive where
  | denoTaskShell (line : String) (identity : Option String)
  | uriShell (uri : String)
deriving DecidableEq

/-- The external effects consulted by `resource.rs`: OS stat, VFS stat, the
execute-permission bit, and subprocess execution (the shell-executive
contract of spec §6, whose implementation is outside `src/`). -/
structure World where
  fsStat : String → Except Unit FsMetadata
  vfsStat : String → Except Unit VfsMetadata
  is_executable : String → Bool
  execute : ShellExecutive → ShellStdIn → Except String ShellResult
  parseJson : String → Except Unit Json

/-! ## Encounterable resources and metadata -/

/-- `EncounterableResource`: the four enumerator variants. Directory-entry
and VFS handles are carried as their path strings. -/
inductive EncounterableResource where
  | walkDir (path : String)
  | smartIgnore (path : String)
  | vfs (path : String)
  | denoTaskShellLine (line : String) (identity : Option String) (nature : String)
deriving DecidableEq, Repr

/-- `EncounterableResource::from_deno_task_shell_line`. The serde parse of
the line is an external collaborator, so the parse result is passed
alongside the raw line: `.ok v` when the line parses as JSON value `v`
(object fields in map-iteration order), `.error ()` otherwise. -/
def EncounterableResource.from_deno_task_shell_line
    (parsed : Except Unit Json) (line : String) : EncounterableResource :=
  let default_nature := "json"
  match parsed with
  | .ok (.obj fields) =>
    let r :=
      fields.foldl
        (fun (acc : String × Option String × String) kv =>
          match kv.2 with
          | .str sv =>
            if kv.1 = "nature" then (acc.1, acc.2.1, sv)
            else (sv, some kv.1, acc.2.2)
          | _ => acc)
        ("no task found", none, default_nature)
    .denoTaskShellLine r.1 r.2.1 r.2.2
  | .ok _ => .denoTaskShellLine line none default_nature
  | .error _ => .denoTaskShellLine line none default_nature

/-- `EncounterableResource::uri`. -/
def EncounterableResource.uri : EncounterableResource → String
  | .walkDir p => p
  | .smartIgnore p => p
  | .vfs p => p
  | .denoTaskShellLine line identity _ => identity.getD line

/-- `EncounteredResourceMetaData`. -/
structure EncounteredResourceMetaData where
  flags : Nat
  nature : Option String
  file_size : Nat
  created_at : Option Int
  last_modified_at : Option Int
deriving DecidableEq, Repr

/-- `EncounteredResourceMetaData::from_fs_path`. -/
def EncounteredResourceMetaData.from_fs_path (w : World) (fs_path : String) :
    Except Unit EncounteredResourceMetaData :=
  match w.fsStat fs_path with
  | .ok metadata =>
    .ok
      { flags :=
          (cond metadata.is_file EncounteredResourceFlags.IS_FILE 0) |||
            (cond metadata.is_dir EncounteredResourceFlags.IS_DIRECTORY 0) |||
            (cond metadata.is_symlink EncounteredResourceFlags.IS_SYMLINK 0)
        nature := rustExtension fs_path
        file_size := metadata.len
        created_at := metadata.created
        last_modified_at := metadata.modified }
  | .error _ => .error ()

/-- `EncounteredResourceMetaData::from_vfs_path`. -/
def EncounteredResourceMetaData.from_vfs_path (w : World) (vfs_path : String) :
    Except Unit EncounteredResourceMetaData :=
  match w.vfsStat vfs_path with
  | .ok metadata =>
    .ok
      { flags :=
          match metadata.file_type with
          | .file => EncounteredResourceFlags.IS_FILE
          | .directory => EncounteredResourceFlags.IS_DIRECTORY
        nature := vfsExtension vfs_path
        file_size := metadata.len
        created_at := none
        last_modified_at := none }
  | .error _ => .error ()

/-- `EncounterableResource::meta_data`. -/
def EncounterableResource.meta_data (w : World) :
    EncounterableResource → Except Unit EncounteredResourceMetaData
  | .walkDir p => EncounteredResourceMetaData.from_fs_path w p
  | .smartIgnore p => EncounteredResourceMetaData.from_fs_path w p
  | .vfs p => EncounteredResourceMetaData.from_vfs_path w p
  | .denoTaskShellLine _ _ nature =>
    .ok
      { flags := 0
        nature := some nature
        file_size := 0
        created_at := none
        last_modified_at := none }

/-! ## Content suppliers -/

/-- `EncounteredResourceContentSuppliers`: the two optional lazy closures.
A present closure is represented by the path it captured (all a presence
claim can observe); `none` is an absent supplier. -/
structure EncounteredResourceContentSuppliers where
  text : Option String
  binary : Option String
deriving DecidableEq, Repr

/-- `EncounteredResourceContentSuppliers::from_fs_path`: both closures are
built exactly when the class has `CONTENT_ACQUIRABLE`. -/
def EncounteredResourceContentSuppliers.from_fs_path (fs_path : String)
    (options : EncounterableResourceClass) : EncounteredResourceContentSuppliers :=
  if flagsContains options.flags EncounterableResourceFlags.CONTENT_ACQUIRABLE then
    { binary := some fs_path, text := some fs_path }
  else
    { binary := none, text := none }

/-- `EncounteredResourceContentSuppliers::from_vfs_path`: same shape over a
VFS path. -/
def EncounteredResourceContentSuppliers.from_vfs_path (vfs_path : String)
    (options : EncounterableResourceClass) : EncounteredResourceContentSuppliers :=
  if flagsContains options.flags EncounterableResourceFlags.CONTENT_ACQUIRABLE then
    { binary := some vfs_path, text := some vfs_path }
  else
    { text := none, binary := none }

/-- `EncounterableResource::content_suppliers`. -/
def EncounterableResource.content_suppliers (er : EncounterableResource)
    (options : EncounterableResourceClass) : EncounteredResourceContentSuppliers :=
  match er with
  | .walkDir p => EncounteredResourceContentSuppliers.from_fs_path p options
  | .smartIgnore p => EncounteredResourceContentSuppliers.from_fs_path p options
  | .vfs p => EncounteredResourceContentSuppliers.from_vfs_path p options
  | .denoTaskShellLine _ _ _ => { text := none, binary := none }

/-! ## Capturable executables -/

/-- `CapturableExecutable`: the invokable form (shell-executive handle,
interpretable text, nature, `is_batched_sql`) or the
requested-but-not-executable marker. -/
inductive CapturableExecutable where
  | uriShellExecutive (executive : ShellExecutive) (uri : String) (nature : String)
      (is_batched_sql : Bool)
  | requestedButNotExecutable (uri : String)
deriving DecidableEq

/-- `CapturableExecutable::uri`. -/
def CapturableExecutable.uri : CapturableExecutable → String
  | .uriShellExecutive _ uri _ _ => uri
  | .requestedButNotExecutable uri => uri

/-- `CapturableExecutable::from_executable_file_uri`: trusts the filename
pattern; the URI string itself is the shell executive. -/
def CapturableExecutable.from_executable_file_uri (uri : String)
    (erc : EncounterableResourceClass) : CapturableExecutable :=
  .uriShellExecutive (.uriShell uri) uri (erc.nature.getD "?nature")
    (flagsContains erc.flags EncounterableResourceFlags.CAPTURABLE_SQL)

/-- `CapturableExecutable::from_executable_file_path`: filename pattern
first, then the physical execute-permission check; a file without the
execute bit becomes `requestedButNotExecutable`. -/
def CapturableExecutable.from_executable_file_path (w : World) (path : String)
    (erc : EncounterableResourceClass) : CapturableExecutable :=
  if w.is_executable path then CapturableExecutable.from_executable_file_uri path erc
  else .requestedButNotExecutable path

/-- `CapturableExecutable::from_encountered_content`. -/
def CapturableExecutable.from_encountered_content (w : World)
    (er : EncounterableResource) (erc : EncounterableResourceClass) :
    CapturableExecutable :=
  match er with
  | .walkDir p => CapturableExecutable.from_executable_file_path w p erc
  | .smartIgnore p => CapturableExecutable.from_executable_file_path w p erc
  | .vfs p => CapturableExecutable.from_executable_file_uri p erc
  | .denoTaskShellLine line identity nature =>
    .uriShellExecutive (.denoTaskShell line identity) line nature
      (flagsContains erc.flags EncounterableResourceFlags.CAPTURABLE_SQL)

/-- The diagnostic issued by every invocation method on a
`RequestedButNotExecutable` value; `method` is the method name embedded in
the `issue` text (the source labels `executed_result_as_text`'s diagnostic
`executed_sql`). -/
def notExecutableDiagnostic (src : String) (method : String) : Json :=
  .obj
    [("src", .str src),
     ("issue",
       .str ("[CapturableExecutable::RequestedButNotExecutable." ++ method ++
         "] executable permissions not set")),
     ("remediation", .str "make sure that script has executable permissions set")]

/-- `CapturableExecutable::executed_result_as_text`. -/
def CapturableExecutable.executed_result_as_text (w : World)
    (ce : CapturableExecutable) (std_in : ShellStdIn) :
    Except Json (String × String × Bool) :=
  match ce with
  | .uriShellExecutive executive interpretable_code nature is_batched_sql =>
    match w.execute executive std_in with
    | .ok shell_result =>
      if shell_result.success then
        .ok (shell_result.stdout, nature, is_batched_sql)
      else
        .error (.obj
          [("src", .str ce.uri),
           ("interpretable-code", .str interpretable_code),
           ("issue",
             .str "[CapturableExecutable::TextFromExecutableUri.executed_text] invalid exit status"),
           ("remediation",
             .str "ensure that executable is called with proper arguments and input formats"),
           ("nature", .str nature),
           ("exit-status", .str (toString shell_result.status)),
           ("stdout", .str shell_result.stdout),
           ("stderr", .str shell_result.stderr)])
    | .error err =>
      .error (.obj
        [("src", .str ce.uri),
         ("interpretable-code", .str interpretable_code),
         ("issue",
           .str "[CapturableExecutable::TextFromExecutableUri.executed_text] execution error"),
         ("rust-err", .str err),
         ("nature", .str nature)])
  | .requestedButNotExecutable src => .error (notExecutableDiagnostic src "executed_sql")

/-- `CapturableExecutable::executed_result_as_json`. The
`serde_json::from_str` parse of the captured stdout is the external serde
collaborator `w.parseJson`. -/
def CapturableExecutable.executed_result_as_json (w : World)
    (ce : CapturableExecutable) (std_in : ShellStdIn) :
    Except Json (Json × String × Bool) :=
  match ce with
  | .uriShellExecutive executive interpretable_code nature is_batched_sql =>
    match w.execute executive std_in with
    | .ok shell_result =>
      if shell_result.success then
        match w.parseJson shell_result.stdout with
        | .ok value => .ok (value, nature, is_batched_sql)
        | .error _ =>
          .error (.obj
            [("src", .str ce.uri),
             ("interpretable-code", .str interpretable_code),
             ("issue",
               .str "[CapturableExecutable::TextFromExecutableUri.executed_result_as_json] unable to deserialize JSON"),
             ("remediation", .str "ensure that executable is emitting JSON (e.g. `--json`)"),
             ("nature", .str nature),
             ("is-batched-sql", .bool is_batched_sql),
             ("stdout", .str shell_result.stdout),
             ("exit-status", .str (toString shell_result.status)),
             ("stderr", .str shell_result.stderr)])
      else
        .error (.obj
          [("src", .str ce.uri),
           ("interpretable-code", .str interpretable_code),
           ("issue",
             .str "[CapturableExecutable::TextFromExecutableUri.executed_result_as_json] invalid exit status"),
           ("remediation",
             .str "ensure that executable is called with proper arguments and input formats"),
           ("nature", .str nature),
           ("is-batched-sql", .bool is_batched_sql),
           ("exit-status", .str (toString shell_result.status)),
           ("stderr", .str shell_result.stderr)])
    | .error err =>
      .error (.obj
        [("src", .str ce.uri),
         ("issue",
           .str "[CapturableExecutable::TextFromExecutableUri.executed_result_as_json] execution error"),
         ("rust-err", .str err),
         ("nature", .str nature),
         ("is-batched-sql", .bool is_batched_sql)])
  | .requestedButNotExecutable src =>
    .error (notExecutableDiagnostic src "executed_result_as_json")

/-- `CapturableExecutable::executed_result_as_sql`: executes only when
`is_batched_sql`; otherwise returns the "is not classified as batch SQL"
diagnostic without touching the executive. -/
def CapturableExecutable.executed_result_as_sql (w : World)
    (ce : CapturableExecutable) (std_in : ShellStdIn) :
    Except Json (String × String) :=
  match ce with
  | .uriShellExecutive executive interpretable_code nature is_batched_sql =>
    if is_batched_sql then
      match w.execute executive std_in with
      | .ok shell_result =>
        if shell_result.success then
          .ok (shell_result.stdout, nature)
        else
          .error (.obj
            [("src", .str ce.uri),
             ("interpretable-code", .str interpretable_code),
             ("issue",
               .str "[CapturableExecutable::TextFromExecutableUri.executed_result_as_sql] invalid exit status"),
             ("remediation",
               .str "ensure that executable is called with proper arguments and input formats"),
             ("nature", .str nature),
             ("exit-status", .str (toString shell_result.status)),
             ("stdout", .str shell_result.stdout),
             ("stderr", .str shell_result.stderr)])
      | .error err =>
        .error (.obj
          [("src", .str ce.uri),
           ("interpretable-code", .str interpretable_code),
           ("issue",
             .str "[CapturableExecutable::TextFromExecutableUri.executed_result_as_sql] execution error"),
           ("rust-err", .str err),
           ("nature", .str nature)])
    else
      .error (.obj
        [("src", .str ce.uri),
         ("interpretable-code", .str interpretable_code),
         ("issue",
           .str "[CapturableExecutable::TextFromExecutableUri.executed_result_as_sql] is not classified as batch SQL"),
         ("nature", .str nature)])
  | .requestedButNotExecutable src =>
    .error (notExecutableDiagnostic src "executed_result_as_sql")

/-! ## Content resources and the encounter state machine -/

/-- `ContentResource`: the materialized record. The two supplier fields
carry the path a present closure captured (`none` = absent closure). -/
structure ContentResource where
  flags : Nat
  uri : String
  nature : Option String
  size : Option Nat
  created_at : Option Int
  last_modified_at : Option Int
  content_binary_supplier : Option String
  content_text_supplier : Option String
deriving DecidableEq, Repr

/-- `EncounteredResource<ContentResource>`. -/
inductive EncounteredResource where
  | Ignored (uri : String) (erc : EncounterableResourceClass)
  | NotFound (uri : String) (erc : EncounterableResourceClass)
  | NotFile (uri : String) (erc : EncounterableResourceClass)
  | Resource (cr : ContentResource) (erc : EncounterableResourceClass)
  | CapturableExec (cr : ContentResource) (ce : CapturableExecutable)
      (erc : EncounterableResourceClass)
deriving DecidableEq

/-- `true` on the three filesystem-origin variants, matching the
`WalkDir | SmartIgnore | Vfs` match arms of `encountered`. -/
def EncounterableResource.isFsBacked : EncounterableResource → Bool
  | .walkDir _ => true
  | .smartIgnore _ => true
  | .vfs _ => true
  | .denoTaskShellLine _ _ _ => false

/-- `EncounterableResource::encountered`. -/
def EncounterableResource.encountered (w : World) (er : EncounterableResource)
    (erc : EncounterableResourceClass) : EncounteredResource :=
  let uri := er.uri
  if flagsContains erc.flags EncounterableResourceFlags.IGNORE_RESOURCE then
    .Ignored uri erc
  else
    match er.meta_data w with
    | .error _ => .NotFound uri erc
    | .ok metadata =>
      if er.isFsBacked &&
          !(flagsContains metadata.flags EncounteredResourceFlags.IS_FILE) then
        .NotFile uri erc
      else
        let content_suppliers := er.content_suppliers erc
        let nature :=
          match erc.nature with
          | some classification_nature => classification_nature
          | none =>
            match metadata.nature with
            | some md_nature => md_nature
            | none => "json"
        let cr : ContentResource :=
          { flags := erc.flags &&& contentResourceFlagsMask
            uri := uri
            nature := some nature
            size := some metadata.file_size
            created_at := metadata.created_at
            last_modified_at := metadata.last_modified_at
            content_binary_supplier := content_suppliers.binary
            content_text_supplier := content_suppliers.text }
        if er.isFsBacked then
          if flagsContains erc.flags EncounterableResourceFlags.CAPTURABLE_EXECUTABLE then
            .CapturableExec cr (CapturableExecutable.from_encountered_content w er erc) erc
          else
            .Resource cr erc
        else
          .CapturableExec cr (CapturableExecutable.from_encountered_content w er erc) erc

/-- The `ContentResource` carried by a successful encounter (`Resource` or
`CapturableExec`), if any. -/
def EncounteredResource.contentResource? : EncounteredResource → Option ContentResource
  | .Resource cr _ => some cr
  | .CapturableExec cr _ _ => some cr
  | _ => none

/-! ## Uniform resources and dispatch -/

/-- `JsonFormat`. -/
inductive JsonFormat where
  | Json
  | JsonWithComments
  | Unknown
deriving DecidableEq, Repr

/-- `JsonableTextSchema`. -/
inductive JsonableTextSchema where
  | TestAnythingProtocol
  | Toml
  | Yaml
  | Unknown
deriving DecidableEq, Repr

/-- `SourceCodeInterpreter`. -/
inductive SourceCodeInterpreter where
  | TypeScript
  | JavaScript
  | Rust
  | Unknown
deriving DecidableEq, Repr

/-- `XmlSchema`. -/
inductive XmlSchema where
  | Svg
  | Unknown
deriving DecidableEq, Repr

/-- `UniformResource<ContentResource>`: the wrapper structs of the source
are inlined to their payload fields. -/
inductive UniformResource where
  | CapturableExec (resource : ContentResource) (executable : CapturableExecutable)
  | Html (resource : ContentResource)
  | Image (resource : ContentResource)
  | Json (resource : ContentResource) (format : JsonFormat)
  | JsonableText (resource : ContentResource) (schema : JsonableTextSchema)
  | Markdown (resource : ContentResource)
  | PlainText (resource : ContentResource)
  | SourceCode (resource : ContentResource) (interpreter : SourceCodeInterpreter)
  | Xml (resource : ContentResource) (schema : XmlSchema)
  | Unknown (resource : ContentResource) (alternate : Option String)
deriving DecidableEq

/-- `ResourcesCollection::uniform_resource` (the receiver collection is
never consulted): nature-driven dispatch to the typed variant, failing
with a URI-naming message when the resource has no nature. -/
def ResourcesCollection.uniform_resource (cr : ContentResource) :
    Except String UniformResource :=
  match cr.nature with
  | some candidate_nature =>
    match candidate_nature with
    | "html" | "text/html" => .ok (.Html cr)
    | "json" | "jsonc" | "application/json" =>
      let format :=
        match candidate_nature with
        | "json" | "application/json" => JsonFormat.Json
        | "jsonc" => JsonFormat.JsonWithComments
        | _ => JsonFormat.Unknown
      .ok (.Json cr format)
    | "tap" | "toml" | "application/toml" | "yml" | "application/yaml" =>
      let format :=
        match candidate_nature with
        | "tap" => JsonableTextSchema.TestAnythingProtocol
        | "toml" | "application/toml" => JsonableTextSchema.Toml
        | "yml" | "application/yaml" => JsonableTextSchema.Yaml
        | _ => JsonableTextSchema.Unknown
      .ok (.JsonableText cr format)
    | "js" | "rs" | "ts" =>
      let interpreter :=
        match candidate_nature with
        | "js" => SourceCodeInterpreter.JavaScript
        | "rs" => SourceCodeInterpreter.Rust
        | "ts" => SourceCodeInterpreter.TypeScript
        | _ => SourceCodeInterpreter.Unknown
      .ok (.SourceCode cr interpreter)
    | "md" | "mdx" | "text/markdown" => .ok (.Markdown cr)
    | "txt" | "text/plain" => .ok (.PlainText cr)
    | "png" | "gif" | "tiff" | "jpg" | "jpeg" => .ok (.Image cr)
    | "svg" | "image/svg+xml" | "xml" | "text/xml" | "application/xml" =>
      let schema :=
        match candidate_nature with
        | "svg" | "image/svg+xml" => XmlSchema.Svg
        | "xml" | "text/xml" | "application/xml" => XmlSchema.Unknown
        | _ => XmlSchema.Unknown
      .ok (.Xml cr schema)
    | _ => .ok (.Unknown cr none)
  | none =>
    .error ("Unable to obtain nature for " ++ cr.uri ++ " from supplied resource")

/-! ## Helpers for stating the claims -/

/-- `true` exactly on the `Ignored` outcome. -/
def EncounteredResource.isIgnored : EncounteredResource → Bool
  | .Ignored _ _ => true
  | _ => false

/-- The string-valued entries of a JSON object's field list, in order
(the entries `obj.iter().filter(|(_, v)| v.is_string())` visits). -/
def stringEntries (fields : List (String × Json)) : List (String × String) :=
  fields.filterMap fun kv =>
    match kv.2 with
    | .str s => some (kv.1, s)
    | _ => none

/-- The string-valued entries whose key is not `nature` (the ones that
overwrite `(task, identity)`). -/
def nonNatureEntries (fields : List (String × Json)) : List (String × String) :=
  (stringEntries fields).filter fun kv => !(kv.1 == "nature")

/-- The string-valued entries whose key is `nature`. -/
def natureEntries (fields : List (String × Json)) : List (String × String) :=
  (stringEntries fields).filter fun kv => kv.1 == "nature"

/-- A world whose every filesystem path stats as a plain (non-executable)
file of size `sz`, with no VFS, no subprocesses and no JSON parses: enough
to drive the encounter state machine at concrete inputs. -/
def plainFileWorld (sz : Nat) : World :=
  { fsStat := fun _ =>
      .ok { is_file := true, is_dir := false, is_symlink := false, len := sz,
            created := none, modified := none }
    vfsStat := fun _ => .error ()
    is_executable := fun _ => false
    execute := fun _ _ => .error "unavailable"
    parseJson := fun _ => .error () }

/-! ## Shared helper lemmas -/

/-- Inserting flag bits `f` into any flag set preserves containment of every
`g` contained in `f` (`bitflags` insert/contains interplay). -/
theorem land_lor_of_land (a f g : Nat) (h : f &&& g = g) : (a ||| f) &&& g = g := by
  apply Nat.eq_of_testBit_eq
  intro i
  have hb := congrArg (fun n => Nat.testBit n i) h
  simp only [Nat.testBit_land, Nat.testBit_lor] at hb ⊢
  cases ha : Nat.testBit a i <;> cases hf : Nat.testBit f i <;>
    cases hg : Nat.testBit g i <;> simp_all

/-- The `for_each` fold of `from_deno_task_shell_line` computes, for each of
the three accumulator components, the value contributed by the *last*
qualifying object entry (or the seed when no entry qualifies). -/
theorem dts_foldl_spec (fields : List (String × Json)) (acc : String × Option String × String) :
    fields.foldl
      (fun (acc : String × Option String × String) kv =>
        match kv.2 with
        | .str sv =>
          if kv.1 = "nature" then (acc.1, acc.2.1, sv)
          else (sv, some kv.1, acc.2.2)
        | _ => acc)
      acc =
    (((nonNatureEntries fields).getLast?.map Prod.snd).getD acc.1,
     ((nonNatureEntries fields).getLast?.map fun kv => some kv.1).getD acc.2.1,
     ((natureEntries fields).getLast?.map Prod.snd).getD acc.2.2) := by
  induction fields using List.reverseRecOn with
  | nil => rfl
  | append_singleton l kv ih =>
    rcases kv with ⟨k, v⟩
    rw [List.foldl_append, List.foldl_cons, List.foldl_nil, ih]
    cases v with
    | str sv =>
      by_cases hk : k = "nature"
      · subst hk
        simp [nonNatureEntries, natureEntries, stringEntries, List.filterMap_append,
          List.filter_append, List.getLast?_concat]
      · simp [nonNatureEntries, natureEntries, stringEntries, List.filterMap_append,
          List.filter_append, List.getLast?_concat, hk]
    | null =>
      simp [nonNatureEntries, natureEntries, stringEntries, List.filterMap_append]
    | bool b =>
      simp [nonNatureEntries, natureEntries, stringEntries, List.filterMap_append]
    | num n =>
      simp [nonNatureEntries, natureEntries, stringEntries, List.filterMap_append]
    | arr xs =>
      simp [nonNatureEntries, natureEntries, stringEntries, List.filterMap_append]
    | obj fs =>
      simp [nonNatureEntries, natureEntries, stringEntries, List.filterMap_append]

/-! ## Claim C1 -/

/-- Claim C1 (code bug): with the default rules, the URI `surveilr[md].tap`
matches the capturable-executable regex (capturing nature `md`) and then
the rewrite rule `\.(tap|text)$`; the code replaces the nature with the
rewrite regex's own captured group `tap` — not with the rule's configured
replacement `text/plain` — and logs `(uri, "md", "tap")`. The configured
`nature` field of the rule (`text/plain`) is never consulted, contradicting
the claim that the captured nature is replaced by the configured
replacement nature string. -/
theorem C1_rewrite_ignores_configured_nature :
    defaultClassifier.classify "surveilr[md].tap" ⟨0, none⟩ (some []) =
      (true, ⟨EncounterableResourceFlags.CAPTURABLE_EXECUTABLE, some "tap"⟩,
        some [("surveilr[md].tap", "md", "tap")]) ∧
    DEFAULT_REWRITE_NATURE_RULE.nature = "text/plain" ∧
    ("tap" : String) ≠ "text/plain" :=
  ⟨by decide, rfl, by decide⟩

/-! ## Claim C2 -/

/-- Claim C2 counterexample: with the default rules, classifying `foo.tap`
returns `false`, sets no flag (in particular not `CONTENT_ACQUIRABLE`),
assigns no nature, and appends nothing to the supplied rewrite log —
`tap` is not among the default acquire-content extensions, so the claimed
`CONTENT_ACQUIRABLE`/`text/plain`/logged-entry outcome does not happen. -/
theorem C2_foo_tap_unclassified_counterexample :
    (defaultClassifier.classify "foo.tap" ⟨0, none⟩ (some [])).1 = false ∧
    defaultClassifier.classify "foo.tap" ⟨0, none⟩ (some []) =
      (false, ⟨0, none⟩, some []) :=
  ⟨by decide, by decide⟩

/-- Claim C2 as amended: with the default rules, `classify("foo.tap")`
returns `false` leaving flags, nature and the rewrite log untouched; an
encountered `x.tap` file resource gets nature `tap` from its filesystem
extension (not `text/plain`) and dispatches to the
`JsonableText(TestAnythingProtocol)` variant (not `PlainText`). -/
theorem C2_tap_flows_unrewritten :
    defaultClassifier.classify "foo.tap" ⟨0, none⟩ (some []) =
      (false, ⟨0, none⟩, some []) ∧
    (EncounterableResource.walkDir "x.tap").encountered (plainFileWorld 3) ⟨0, none⟩ =
      .Resource ⟨0, "x.tap", some "tap", some 3, none, none, none, none⟩ ⟨0, none⟩ ∧
    ResourcesCollection.uniform_resource
        ⟨0, "x.tap", some "tap", some 3, none, none, none, none⟩ =
      .ok (.JsonableText ⟨0, "x.tap", some "tap", some 3, none, none, none, none⟩
        .TestAnythingProtocol) :=
  ⟨by decide, by decide, by rfl⟩

/-! ## Claim C3 -/

/-- Claim C3: whenever an encounter succeeds (outcome `Resource` or
`CapturableExec`, over all four encounterable variants, any world and any
class), the materialized `ContentResource`'s nature is the
classifier-assigned nature when present, otherwise the nature reported by
the metadata probe (the filesystem extension for filesystem variants),
otherwise the literal string `json`. -/
theorem C3_nature_precedence (w : World) (er : EncounterableResource)
    (erc : EncounterableResourceClass) (cr : ContentResource)
    (h : (er.encountered w erc).contentResource? = some cr) :
    ∃ md, er.meta_data w = .ok md ∧
      cr.nature = some (erc.nature.getD (md.nature.getD "json")) := by
  unfold EncounterableResource.encountered at h
  split at h
  · simp [EncounteredResource.contentResource?] at h
  · rcases hmd : er.meta_data w with e | md
    · rw [hmd] at h
      simp [EncounteredResource.contentResource?] at h
    · rw [hmd] at h
      refine ⟨md, rfl, ?_⟩
      simp only [] at h
      split at h
      · simp [EncounteredResource.contentResource?] at h
      · split at h
        · split at h <;>
            · simp [EncounteredResource.contentResource?] at h
              rw [← h]
              cases he : erc.nature <;> cases hn : md.nature <;> simp [he, hn]
        · simp [EncounteredResource.contentResource?] at h
          rw [← h]
          cases he : erc.nature <;> cases hn : md.nature <;> simp [he, hn]

/-- Claim C3 witness: a concrete successful encounter (a walked file
`a.md` classified `CONTENT_ACQUIRABLE` with nature `md`) instantiating the
precedence theorem. -/
theorem C3_nature_precedence_witness :
    ((EncounterableResource.walkDir "a.md").encountered (plainFileWorld 2)
        ⟨1, some "md"⟩).contentResource? =
      some ⟨1, "a.md", some "md", some 2, none, none, some "a.md", some "a.md"⟩ ∧
    ∃ md, (EncounterableResource.walkDir "a.md").meta_data (plainFileWorld 2) = .ok md ∧
      (⟨1, "a.md", some "md", some 2, none, none, some "a.md", some "a.md"⟩ :
        ContentResource).nature = some ((some "md" : Option String).getD
          (md.nature.getD "json")) :=
  ⟨by decide,
    C3_nature_precedence (plainFileWorld 2) (.walkDir "a.md") ⟨1, some "md"⟩ _ (by decide)⟩

/-! ## Claim C4 -/

/-- Claim C4 counterexample: a task-shell line whose URI `foo.md` the
default classifier marks `CONTENT_ACQUIRABLE` nevertheless gets no content
suppliers — the claimed "both present iff `CONTENT_ACQUIRABLE`"
equivalence fails on the task-shell variant. -/
theorem C4_task_line_suppliers_counterexample :
    defaultClassifier.classify "foo.md" ⟨0, none⟩ none = (true, ⟨1, some "md"⟩, none) ∧
    (EncounterableResource.denoTaskShellLine "foo.md" none "json").content_suppliers
      ⟨1, some "md"⟩ = ⟨none, none⟩ ∧
    ¬((((EncounterableResource.denoTaskShellLine "foo.md" none "json").content_suppliers
          ⟨1, some "md"⟩).text.isSome ∧
        ((EncounterableResource.denoTaskShellLine "foo.md" none
          "json").content_suppliers ⟨1, some "md"⟩).binary.isSome) ↔
      flagsContains (1 : Nat) EncounterableResourceFlags.CONTENT_ACQUIRABLE = true) :=
  ⟨by decide, by decide, by decide⟩

/-- Claim C4 as amended: the binary and text content suppliers are both
present iff the resource is one of the three filesystem-backed variants
*and* `CONTENT_ACQUIRABLE` is set in the class; task-shell lines never get
suppliers, whatever the class. -/
theorem C4_suppliers_iff_fs_backed_and_acquirable (er : EncounterableResource)
    (erc : EncounterableResourceClass) :
    ((er.content_suppliers erc).text.isSome && (er.content_suppliers erc).binary.isSome) =
      (er.isFsBacked &&
        flagsContains erc.flags EncounterableResourceFlags.CONTENT_ACQUIRABLE) := by
  cases er <;>
    by_cases h : flagsContains erc.flags EncounterableResourceFlags.CONTENT_ACQUIRABLE <;>
      simp [EncounterableResource.content_suppliers,
        EncounteredResourceContentSuppliers.from_fs_path,
        EncounteredResourceContentSuppliers.from_vfs_path,
        EncounterableResource.isFsBacked, h]

/-! ## Claim C5 -/

/-- Claim C5 counterexample: for the task line whose JSON object holds two
string-valued fields `a: x` and `b: y`, the code keeps the *last* such
field — identity `b`, command `y` — not the first (`a`, `x`) the claim
predicts. -/
theorem C5_first_field_counterexample :
    EncounterableResource.from_deno_task_shell_line
        (.ok (.obj [("a", .str "x"), ("b", .str "y")]))
        "\x7b\"a\":\"x\",\"b\":\"y\"\x7d" =
      .denoTaskShellLine "y" (some "b") "json" ∧
    EncounterableResource.denoTaskShellLine "y" (some "b") "json" ≠
      .denoTaskShellLine "x" (some "a") "json" :=
  ⟨by decide, by decide⟩

/-- Claim C5 as amended: for every task line that parses as a JSON object,
the *last* string-valued field other than `nature` (in the object's field
order) becomes `(identity, command)`, and the last string-valued `nature`
field supplies the nature (default `json`); in particular the line
`{"hello":"echo hi","nature":"text/plain"}` yields identity `hello`,
command `echo hi`, nature `text/plain`, and the resulting resource's `uri`
is `hello`. -/
theorem C5_last_string_field_wins :
    (∀ (fields : List (String × Json)) (line : String),
      EncounterableResource.from_deno_task_shell_line (.ok (.obj fields)) line =
        .denoTaskShellLine
          (((nonNatureEntries fields).getLast?.map Prod.snd).getD "no task found")
          ((nonNatureEntries fields).getLast?.map Prod.fst)
          (((natureEntries fields).getLast?.map Prod.snd).getD "json")) ∧
    EncounterableResource.from_deno_task_shell_line
        (.ok (.obj [("hello", .str "echo hi"), ("nature", .str "text/plain")]))
        "\x7b\"hello\":\"echo hi\",\"nature\":\"text/plain\"\x7d" =
      .denoTaskShellLine "echo hi" (some "hello") "text/plain" ∧
    (EncounterableResource.denoTaskShellLine "echo hi" (some "hello") "text/plain").uri =
      "hello" := by
  refine ⟨?_, by decide, by decide⟩
  intro fields line
  unfold EncounterableResource.from_deno_task_shell_line
  simp only []
  rw [dts_foldl_spec]
  cases (nonNatureEntries fields).getLast? <;> rfl

/-! ## Claim C6 -/

/-- Claim C6 counterexample: with the default rules, the literal input
`.git/config` matches no rule — the ignore regex `/(\.git|node_modules)/`
needs a slash on both sides — so `classify` returns `false` with no flag
set (not `IGNORE_RESOURCE`), and encountering it does not yield
`Ignored`. -/
theorem C6_bare_dot_git_not_ignored :
    defaultClassifier.classify ".git/config" ⟨0, none⟩ none = (false, ⟨0, none⟩, none) ∧
    ((EncounterableResource.walkDir ".git/config").encountered (plainFileWorld 0)
      ⟨0, none⟩).isIgnored = false :=
  ⟨by decide, by decide⟩

/-- Claim C6 as amended: with the default rules, a URI with `/.git/` between
slashes — such as `work/.git/config` — classifies with `IGNORE_RESOURCE`
and no other flag, and encountering it with that class yields
`EncounteredResource::Ignored`; the bare `.git/config` is not ignored. -/
theorem C6_slash_dot_git_ignored :
    defaultClassifier.classify "work/.git/config" ⟨0, none⟩ none =
      (true, ⟨EncounterableResourceFlags.IGNORE_RESOURCE, none⟩, none) ∧
    (EncounterableResource.walkDir "work/.git/config").encountered (plainFileWorld 0)
        ⟨EncounterableResourceFlags.IGNORE_RESOURCE, none⟩ =
      .Ignored "work/.git/config" ⟨EncounterableResourceFlags.IGNORE_RESOURCE, none⟩ ∧
    defaultClassifier.classify ".git/config" ⟨0, none⟩ none =
      (false, ⟨0, none⟩, none) :=
  ⟨by decide, by decide, by decide⟩

/-! ## Claim C7 -/

/-- Claim C7 counterexample: the URI `surveilr-SQL.md` matches the default
batch-SQL pattern, yet classification gives it `CONTENT_ACQUIRABLE` only
(the acquire-content family wins first), so "a URI matching a batch-SQL
pattern is classified with both `CAPTURABLE_EXECUTABLE` and
`CAPTURABLE_SQL`" fails as stated. -/
theorem C7_sql_pattern_preempted_counterexample :
    DEFAULT_CAPTURE_SQL_MATCH "surveilr-SQL.md" = true ∧
    defaultClassifier.classify "surveilr-SQL.md" ⟨0, none⟩ none =
      (true, ⟨1, some "md"⟩, none) ∧
    flagsContains 1 EncounterableResourceFlags.CAPTURABLE_SQL = false ∧
    flagsContains 1 EncounterableResourceFlags.CAPTURABLE_EXECUTABLE = false :=
  ⟨by decide, by decide, by decide, by decide⟩

/-- Claim C7 as amended: a URI matching a batch-SQL pattern *and matched by
none of the ignore, acquire-content, or capturable-executable rules* is
classified with both `CAPTURABLE_EXECUTABLE` and `CAPTURABLE_SQL`; and
`executed_result_as_sql` on an invokable capturable executable whose
`is_batched_sql` flag is `false` returns — for every world, hence without
executing the command — a diagnostic whose `issue` field contains
`not classified as batch SQL`. -/
theorem C7_sql_classification_and_nonsql_diagnostic
    (c : EncounterableResourcePathClassifier) (text : String)
    (cls : EncounterableResourceClass) (log : Option (List (String × String × String)))
    (w : World) (executive : ShellExecutive) (code nature : String) (std_in : ShellStdIn)
    (h1 : c.ignore_paths_regex_set text = false)
    (h2 : findNatureCapture c.acquire_content_for_paths_regex_set text = none)
    (h3 : findNatureCapture c.capturable_executables_paths_regexs text = none)
    (h4 : c.captured_exec_sql_paths_regex_set text = true) :
    c.classify text cls log =
      (true,
        { cls with flags := cls.flags |||
            (EncounterableResourceFlags.CAPTURABLE_EXECUTABLE |||
              EncounterableResourceFlags.CAPTURABLE_SQL) },
        log) ∧
    flagsContains (c.classify text cls log).2.1.flags
      EncounterableResourceFlags.CAPTURABLE_EXECUTABLE = true ∧
    flagsContains (c.classify text cls log).2.1.flags
      EncounterableResourceFlags.CAPTURABLE_SQL = true ∧
    (CapturableExecutable.uriShellExecutive executive code nature false).executed_result_as_sql
        w std_in =
      .error (.obj
        [("src", .str code),
         ("interpretable-code", .str code),
         ("issue",
           .str "[CapturableExecutable::TextFromExecutableUri.executed_result_as_sql] is not classified as batch SQL"),
         ("nature", .str nature)]) ∧
    containsSubstr
      "[CapturableExecutable::TextFromExecutableUri.executed_result_as_sql] is not classified as batch SQL"
      "not classified as batch SQL" = true := by
  have hcl : c.classify text cls log =
      (true,
        { cls with flags := cls.flags |||
            (EncounterableResourceFlags.CAPTURABLE_EXECUTABLE |||
              EncounterableResourceFlags.CAPTURABLE_SQL) },
        log) := by
    simp [EncounterableResourcePathClassifier.classify, h1, h2, h3, h4]
  refine ⟨hcl, ?_, ?_, rfl, by decide⟩
  · rw [hcl]
    simp only [flagsContains]
    rw [land_lor_of_land _ _ _ (by decide)]
    simp
  · rw [hcl]
    simp only [flagsContains]
    rw [land_lor_of_land _ _ _ (by decide)]
    simp

/-- Claim C7 witness: the hypotheses hold for the default classifier at the
URI `x-surveilr-SQL` (and a concrete world, executive, code and nature for
the invocation half). -/
theorem C7_sql_classification_and_nonsql_diagnostic_witness :
    (defaultClassifier.ignore_paths_regex_set "x-surveilr-SQL" = false ∧
      findNatureCapture defaultClassifier.acquire_content_for_paths_regex_set
        "x-surveilr-SQL" = none ∧
      findNatureCapture defaultClassifier.capturable_executables_paths_regexs
        "x-surveilr-SQL" = none ∧
      defaultClassifier.captured_exec_sql_paths_regex_set "x-surveilr-SQL" = true) ∧
    (defaultClassifier.classify "x-surveilr-SQL" ⟨0, none⟩ none =
      (true,
        { flags := (0 : Nat) |||
            (EncounterableResourceFlags.CAPTURABLE_EXECUTABLE |||
              EncounterableResourceFlags.CAPTURABLE_SQL),
          nature := none },
        none) ∧
    flagsContains (defaultClassifier.classify "x-surveilr-SQL" ⟨0, none⟩ none).2.1.flags
      EncounterableResourceFlags.CAPTURABLE_EXECUTABLE = true ∧
    flagsContains (defaultClassifier.classify "x-surveilr-SQL" ⟨0, none⟩ none).2.1.flags
      EncounterableResourceFlags.CAPTURABLE_SQL = true ∧
    (CapturableExecutable.uriShellExecutive (.uriShell "e") "c" "n"
        false).executed_result_as_sql (plainFileWorld 0) (none : Option String) =
      .error (.obj
        [("src", .str "c"),
         ("interpretable-code", .str "c"),
         ("issue",
           .str "[CapturableExecutable::TextFromExecutableUri.executed_result_as_sql] is not classified as batch SQL"),
         ("nature", .str "n")]) ∧
    containsSubstr
      "[CapturableExecutable::TextFromExecutableUri.executed_result_as_sql] is not classified as batch SQL"
      "not classified as batch SQL" = true) :=
  ⟨⟨by decide, by decide, by decide, by decide⟩,
    C7_sql_classification_and_nonsql_diagnostic defaultClassifier "x-surveilr-SQL"
      ⟨0, none⟩ none (plainFileWorld 0) (.uriShell "e") "c" "n" (none : Option String)
      (by decide) (by decide) (by decide) (by decide)⟩

/-! ## Claim C8 -/

/-- Claim C8: a file-backed capturable executable whose execute bit is unset
at construction time (via `from_executable_file_path`, hence via
`from_encountered_content` for both real-filesystem variants) is the
`RequestedButNotExecutable` variant, and on that variant all three
invocation methods return — for every world and stdin, hence without
running anything — the diagnostic pointing at the missing execute
permission. -/
theorem C8_not_executable_short_circuits (w : World) (path : String)
    (erc : EncounterableResourceClass) (std_in : ShellStdIn)
    (h : w.is_executable path = false) :
    CapturableExecutable.from_executable_file_path w path erc =
      .requestedButNotExecutable path ∧
    CapturableExecutable.from_encountered_content w (.walkDir path) erc =
      .requestedButNotExecutable path ∧
    CapturableExecutable.from_encountered_content w (.smartIgnore path) erc =
      .requestedButNotExecutable path ∧
    (CapturableExecutable.requestedButNotExecutable path).executed_result_as_text w std_in =
      .error (notExecutableDiagnostic path "executed_sql") ∧
    (CapturableExecutable.requestedButNotExecutable path).executed_result_as_json w std_in =
      .error (notExecutableDiagnostic path "executed_result_as_json") ∧
    (CapturableExecutable.requestedButNotExecutable path).executed_result_as_sql w std_in =
      .error (notExecutableDiagnostic path "executed_result_as_sql") ∧
    (notExecutableDiagnostic path "executed_sql").getStrField? "src" = some path ∧
    (notExecutableDiagnostic path "executed_sql").getStrField? "remediation" =
      some "make sure that script has executable permissions set" := by
  refine ⟨?_, ?_, ?_, rfl, rfl, rfl, ?_, rfl⟩
  · simp [CapturableExecutable.from_executable_file_path, h]
  · simp [CapturableExecutable.from_encountered_content,
      CapturableExecutable.from_executable_file_path, h]
  · simp [CapturableExecutable.from_encountered_content,
      CapturableExecutable.from_executable_file_path, h]
  · simp [notExecutableDiagnostic, Json.getStrField?]

/-- Claim C8 witness: in the world where no path is executable, the script
`run.surveilr[json].sh` short-circuits as the theorem states. -/
theorem C8_not_executable_short_circuits_witness :
    (plainFileWorld 0).is_executable "run.surveilr[json].sh" = false ∧
    (CapturableExecutable.from_executable_file_path (plainFileWorld 0)
        "run.surveilr[json].sh" ⟨4, some "json"⟩ =
      .requestedButNotExecutable "run.surveilr[json].sh" ∧
    CapturableExecutable.from_encountered_content (plainFileWorld 0)
        (.walkDir "run.surveilr[json].sh") ⟨4, some "json"⟩ =
      .requestedButNotExecutable "run.surveilr[json].sh" ∧
    CapturableExecutable.from_encountered_content (plainFileWorld 0)
        (.smartIgnore "run.surveilr[json].sh") ⟨4, some "json"⟩ =
      .requestedButNotExecutable "run.surveilr[json].sh" ∧
    (CapturableExecutable.requestedButNotExecutable
        "run.surveilr[json].sh").executed_result_as_text (plainFileWorld 0)
        (none : Option String) =
      .error (notExecutableDiagnostic "run.surveilr[json].sh" "executed_sql") ∧
    (CapturableExecutable.requestedButNotExecutable
        "run.surveilr[json].sh").executed_result_as_json (plainFileWorld 0)
        (none : Option String) =
      .error (notExecutableDiagnostic "run.surveilr[json].sh" "executed_result_as_json") ∧
    (CapturableExecutable.requestedButNotExecutable
        "run.surveilr[json].sh").executed_result_as_sql (plainFileWorld 0)
        (none : Option String) =
      .error (notExecutableDiagnostic "run.surveilr[json].sh" "executed_result_as_sql") ∧
    (notExecutableDiagnostic "run.surveilr[json].sh" "executed_sql").getStrField? "src" =
      some "run.surveilr[json].sh" ∧
    (notExecutableDiagnostic "run.surveilr[json].sh" "executed_sql").getStrField?
        "remediation" =
      some "make sure that script has executable permissions set") :=
  ⟨by decide,
    C8_not_executable_short_circuits (plainFileWorld 0) "run.surveilr[json].sh"
      ⟨4, some "json"⟩ (none : Option String) (by decide)⟩

/-! ## Claim C9 -/

/-- Claim C9: for every `ContentResource` whose nature is `none`,
`uniform_resource` returns an error (no variant, no panic) whose message
names the resource's URI. -/
theorem C9_missing_nature_dispatch_error (cr : ContentResource) (h : cr.nature = none) :
    ResourcesCollection.uniform_resource cr =
      .error ("Unable to obtain nature for " ++ cr.uri ++ " from supplied resource") := by
  unfold ResourcesCollection.uniform_resource
  rw [h]

/-- Claim C9 witness: a concrete natureless resource at URI `u` dispatches
to the URI-naming error. -/
theorem C9_missing_nature_dispatch_error_witness :
    (⟨0, "u", none, none, none, none, none, none⟩ : ContentResource).nature = none ∧
    ResourcesCollection.uniform_resource
        (⟨0, "u", none, none, none, none, none, none⟩ : ContentResource) =
      .error ("Unable to obtain nature for " ++ "u" ++ " from supplied resource") :=
  ⟨rfl, C9_missing_nature_dispatch_error ⟨0, "u", none, none, none, none, none, none⟩ rfl⟩

/-! ## Claim C10 -/

/-- Claim C10: a task line parsing as a JSON object with no string-valued
field other than `nature` yields the sentinel command `no task found` with
identity `none` — the original line is not used as the command. -/
theorem C10_no_task_found_sentinel (fields : List (String × Json)) (line : String)
    (h : nonNatureEntries fields = []) :
    ∃ nat, EncounterableResource.from_deno_task_shell_line (.ok (.obj fields)) line =
      .denoTaskShellLine "no task found" none nat := by
  unfold EncounterableResource.from_deno_task_shell_line
  simp only []
  rw [dts_foldl_spec, h]
  exact ⟨_, rfl⟩

/-- Claim C10 witness: the line `{"a":1,"nature":"text/plain"}` (one
non-string field, one `nature` field) hits the sentinel. -/
theorem C10_no_task_found_sentinel_witness :
    nonNatureEntries [("a", Json.num 1), ("nature", Json.str "text/plain")] = [] ∧
    ∃ nat, EncounterableResource.from_deno_task_shell_line
        (.ok (.obj [("a", Json.num 1), ("nature", Json.str "text/plain")]))
        "\x7b\"a\":1,\"nature\":\"text/plain\"\x7d" =
      .denoTaskShellLine "no task found" none nat :=
  ⟨by decide,
    C10_no_task_found_sentinel [("a", Json.num 1), ("nature", Json.str "text/plain")]
      "\x7b\"a\":1,\"nature\":\"text/plain\"\x7d" (by decide)⟩
